import Mathlib

/-!
Verification development for the recipe-evaluation annotation tool
(`app.py`).  The core logic embedded here:

* the blind assignment generator (`np.random.seed(42)`;
  `np.random.rand(len(df)) < 0.5`), embedded as a faithful MT19937
  implementation over `Nat` (numpy's legacy `RandomState` with a scalar
  32-bit seed calls `init_genrand(seed)`; `rand` uses `genrand_res53`:
  `(a*2^26 + b) / 2^53` with `a = genrand() >> 5`, `b = genrand() >> 6`);
* `load_source_data` (CSV load, blinding, one-time mapping persistence);
* the `parse` helper (tolerant JSON field parsing);
* `get_google_sheet_data` / `completed_ids` (progress tracking);
* the form submit handler (validation and append).

Machine doubles produced by `genrand_res53` are dyadic rationals with a
53-bit numerator, represented exactly by IEEE doubles, so the comparison
`draw < 0.5` performed by the source is exactly the integer comparison
`2 * numerator < 2^53`; we work with the numerators directly.
-/

/-! ### MT19937 (numpy legacy RandomState, scalar seed path)

The 624-word generator state is encoded as a single natural number in
base `2^32`: word `i` is `(st / 2^(32*i)) % 2^32`. -/

/-- Word `i` of the encoded state. -/
def mtGet (st i : Nat) : Nat := (st / 4294967296 ^ i) % 4294967296

/-- Replace word `i` of the encoded state by `v` (with `v < 2^32`). -/
def mtSet (st i v : Nat) : Nat :=
  (st - mtGet st i * 4294967296 ^ i) + v * 4294967296 ^ i

/-- The loop body of `init_genrand`: the accumulator is
(state so far, previous word, `2^(32*i)`), `i` the current index, and the
second argument the number of iterations left.  Each step appends
`mt[i] = (1812433253 * (mt[i-1] ^ (mt[i-1] >> 30)) + i) mod 2^32`. -/
def mtInitGo : Nat → Nat → Nat × Nat × Nat → Nat × Nat × Nat
  | _, 0, acc => acc
  | i, steps + 1, acc =>
      let v := (1812433253 * (acc.2.1 ^^^ (acc.2.1 >>> 30)) + i) % 4294967296
      mtInitGo (i + 1) steps (acc.1 + v * acc.2.2, v, acc.2.2 * 4294967296)

/-- `init_genrand(s)`: `mt[0] = s`, then the loop for `i = 1 .. 623`. -/
def mtInit (s : Nat) : Nat :=
  (mtInitGo 1 623 (s % 4294967296, s % 4294967296, 4294967296)).1

/-- One in-place update of the MT twist loop at index `i`. -/
def mtTwistStep (st i : Nat) : Nat :=
  let y := (mtGet st i &&& 2147483648) ||| (mtGet st ((i + 1) % 624) &&& 2147483647)
  let mag := if y % 2 = 1 then 2567483615 else 0
  mtSet st i (mtGet st ((i + 397) % 624) ^^^ (y >>> 1) ^^^ mag)

/-- The twist loop: apply `mtTwistStep` at indices `i, i+1, ...` for the given
number of steps. -/
def mtTwistGo : Nat → Nat → Nat → Nat
  | _, 0, st => st
  | i, steps + 1, st => mtTwistGo (i + 1) steps (mtTwistStep st i)

/-- The full twist: regenerate all 624 state words (in place, in order). -/
def mtTwist (st : Nat) : Nat := mtTwistGo 0 624 st

/-- MT19937 output tempering. -/
def temper (y : Nat) : Nat :=
  let y1 := y ^^^ (y >>> 11)
  let y2 := y1 ^^^ ((y1 <<< 7) &&& 2636928640)
  let y3 := y2 ^^^ ((y2 <<< 15) &&& 4022730752)
  y3 ^^^ (y3 >>> 18)

/-- The 624 tempered outputs read off a (freshly twisted) state. -/
def mtBlock (st : Nat) : List Nat := (List.range 624).map (fun i => temper (mtGet st i))

/-- `b` consecutive blocks of 624 tempered outputs, twisting before each block
(after seeding, numpy's index is 624, so the first draw triggers a twist). -/
def mtStream : Nat → Nat → List Nat
  | _, 0 => []
  | st, b + 1 =>
      let st2 := mtTwist st
      mtBlock st2 ++ mtStream st2 b

/-- The first `n` 32-bit outputs of the generator seeded with `seed`. -/
def mtOutputs (seed n : Nat) : List Nat :=
  (mtStream (mtInit seed) ((n + 623) / 624)).take n

/-- Pair consecutive 32-bit outputs into 53-bit double numerators:
`(y0 >> 5) * 2^26 + (y1 >> 6)` (the value of `genrand_res53` is this over `2^53`). -/
def pairUp : List Nat → List Nat
  | a :: b :: rest => ((a >>> 5) * 67108864 + (b >>> 6)) :: pairUp rest
  | _ => []

/-- Numerators (over `2^53`) of `np.random.rand(n)` after `np.random.seed(seed)`. -/
def randNumerators (seed n : Nat) : List Nat := pairUp (mtOutputs seed (2 * n))

/-- `np.random.seed(42); np.random.rand(n) < 0.5` from `load_source_data`:
`numerator / 2^53 < 1/2` is exactly `2 * numerator < 2^53`. -/
def is_mixed_A (n : Nat) : List Bool :=
  (randNumerators 42 n).map (fun num => decide (2 * num < 9007199254740992))

/-! ### Concrete evaluation of the seeded generator

Evaluating the full 1871-step seeding/twist chain in one kernel reduction
exceeds the recursion depth, so the loops are evaluated in chunks and glued
with composition lemmas.  The chunk constants below are the intermediate
loop states. -/

def mtChunkS1 : Nat × Nat × Nat :=
  (1001148170873895159117383866114571047058074106664971761575638827018433726609283864607639137878315140930853399314281381975532677432020170351864850523050831405548853402789327826985753005753078983484822774469386068873513940685050433851026475735153429704649137581669123514362296955590763011360007330799227228201625208796812894961238594853469952731922067056352164802003722593283652461633405560081872630384007753422622163426694121598066828893660360304193329669591333777725878038571655657728102014285110138492873815580951285301005970570836885558800000080731638124577033631520266765376257822599199978079454641467288967765975397040237719710572094694405915695332568167470909876435107276007746493954962619442689457847334371205667088385473864071820676834922292550154880226782381965148154994181358456123918403043845619807785646411008818078192882161970388734998299095806179701354178766052940765985022528114045255801042342158918112173936626858572335767376705696836778654132834150342257859391062716734669096826433561802873472509877358285342746560760348401156814246936261652116687685554679842201698622906639057384823632529258282123465179531315987044302080397908081644254016889088174442315080985063570326686359914286246724270566338342004201429432527726454831243133335478913167302712668416369737224299712455053544281169850473302500388653096879867555433466777220640032900653397062359026657647670451077281941451775065913955158928311752512990084680539705612325329095550310130800360006078072225256892107978419796571606680321356024122385756288355417750483113122983686674385476654656967323876106824684319827862749872502229314233067068427465994945760167055503335812427811428701712899905378533000313208458364298131227302628627282559229663575744142212496684623247350749527993269009085717955162810007459126183639218059869094633284818172968906399067455766133819139350913423755126379681091488763088171972061037067104314093403071129322972637920022414886557796309881727130278679507993685795574713526166205943415730866661088159162819273407872102467649650518626541737473296030489816862783264767780716749894760371376046957424355895207105203311171912693797762695965759368205095546934294470328248371155533377585603209299818754975007552274399253996776798958573921857990088935186506027780878554732365501157562234226663477507743447953725076272925865237225853070092853519946095154007711367741313436792770548515439161938855082477610981485479111176111206405761146514946654509853614929060167727507381576923366548501168607540645519305203940670193599801563259894341505208678556464030433758112939494921200407386069164816912745852680155536875794167655376953477676282775495125823415492628412833931162598443358164595371468576924778145283701489872258666825409863207457214762458990739470403178065727818516348061288204590849983554893084215505694053707474173603289204017916847060555348885548857031478100877927648594101010239713236907445438070691416205456454768412363356574778182654066700588622737860589781148565899143117760584148866338438253976411969871118199602710315050,
   3288680241,
   1307484564278973815117409263736314320534566883744935087211812585375625303177425494469506608924996049167930564897879433168260726217075181559322626354845864686902033124346678118106087197983772501312834770496270716865249844164075068108669522730424049656665898345748103774466318877186498335100729681677969810264242591933652955368440454946946118662413912516964798678671664137033277817535347329275765815783191765415295022786111788873189704847921291029861721311577739470407637607558691878954620415791376070036538869656176270126126336010354307771898749140709131044784524681903292540573087470810211978964474358322555887008781968294353002808549000989954995502165160370048992461313561428146803427853645275057544651933707674140108496843287539913461689198466978587528478645036469794074263044725918679048584748088800597823167262380534088891910618890622816278548416871723924659519901867120377562018828374520819328021797041914249897957513072874097538686452794331098030473490361370273950656140057406200673200469184024952913946608108820382475751210163768816093631145993518615647959251858712459553169523398843631781721279024556487287340640149353304107905021084188133357834140600979580752486565463229062006501403946727610738270331644202737260156552979630179953690126422687402171583325125595028626304090327742861352645270187427886903949780462110720552739534265567420752080758786193925674676421987374260723110639172699430742068057249092460153360849607288748320789837163535133134088028345035360812754167248667112589918877274010243669082339726179747448355969322090387259846685861258108723171786704749630069388172619489988916957137561073941469321450909877597908687323468459392916819186721390664145501409272756563391253108119709863578432904821854381393784153284260575846823328729215931611544431614886634394172014651364266307500151765461986027353911310785898386745261585925972301023515987681614363864324914173938168981695733655197770548914595008914969953531574378646289782830284598362397107858835195418231136348191254029024692633037109114867354878548253097773621587363228939280795724805179198849640592110715841850139587247923936731877433435350851482799401050881515697671725660618063813685180381246035175111729512069357236893434712500172765114064974666974970362185735558372471394224098028387164959624307910952127800269899995696193310393496199839506068073551488238613182349839638221446545164741445926199057995424962429348658141627086947720489562249035225376663431894552520748959735627771934801869326367611815402659030274886804161047757337384664189148545016207046097780366519420296762907493365742571265873005304471592860814962887030382396634796590944246927688502040219043104626944812683660961874281544254678577586484762226861664906858671082308090504843964550837103514759024138460451197118534389158316504651139410936706099547382729211952683658261055465290332539015690215017406043274474436600078013611561422115173050458075843691705893500019541755476153118761392193562852203893915529409711532725170981250093289518575543354109576760838887617945665536)

def mtChunkS2 : Nat × Nat × Nat :=
  (576530615885411601245301592000665333995298971017035641151605743016014334390650357488162233615613294480555991590699430476495171072426114313754971974907122608682506805825645685212013539160435067384252499936084402767867918598201238710655243095901560006202250696161753671504002112942893302852654704316082246928744477343509059895338253102415589992057604721980525492895235696084227080387663265009553307542345390327279676811451023833039642822734639964143263747926140075292317849149026937235167824813083534485045872854420312077309261199897317801034297595956824327845257587766424881288040833618951604830463528855869001151680156107922877149238558221011630989560841929541854241712001991022762936785363997391915822090332985557480211216674160250015202883733458406524908329036638929702735084197423288972025337476268141826851413799841232297255920517739888578376882611916118372671888366476747290151457462026314683470054588642315790413163736484543351859775203916002114474162800537206645405518601810316749074949333578090844588203126659609298516433249492992629888003282476073676981875730151689402516080776808364459851846498640479442849387056034090610928754206039233078643938276139263965744111752134625786991488662909952376821456751292053964024999417019856270760980261405620319177191873948693620890870052752156252998051666553615821281664364669997925700235478436079979984333918991246971954258095869173048058234857599241416042376233471504600166522995501129680413767190782405824437152132043448138580964774433144699321440165335427127209717876907803827745323706386024551518531532417674071738625276513880615056749641745155383328206239052382868050030922288875137978955405655433508720719321653328684792107812743380481418392596218371917343819325269019518354835748397733338013129260687207177613392826042874394007359750610712519235007903759930685281018907329762068058792520029493116773238939716993790495011749111185393380500044026963359718309069644288715393930978335965268466170730885859974888180628595358370827339639823491041746583009682675355648804933723638577761480056317817597308220742269167426729595665732030506356460883927938697317510016392211302666254828689244375938108745263786691814635707011096663667077745888598210413360812888798365857248289428238709709617049337295154831718161124148115350121187853089118581950844054128009285439896965132893557434066426143552091078035395569746518313284303574136780256546453528718040719664452518445663927454987913833822061947348244659034788076593508691171709923225688133045270829160082099889126937609640862937637915508140791743875956528569809133908327340939669524864131745337286937500639354896642097082407829129341261009545051058983154571153143911518880377729987656019209591634659688616263228504052223514885823495028162495626980696404254891007155226372356430400496436157876884176534684557681014992964032139485733782760420159769142338696408877985805929676972891306926380320480004214641757919869289477596062845756705950031601188160608734991829696112694591825987042582950147160452585287086366174568482377041337089764810331549414590942258931890956566577178819723769280488458085825034655198390614948926755792251809293136019040081876291972424907172822817984364161517519075418927244049724827041492646698453993698076615705139915395054664346096616556160406377813543234659063888596846382750095824799694623742061750291684920115971784782078560989403596370524614347276164241605123667835879083535158872870164968261089553575251494653192440479520335412801547872445680928005403846256484933052779175403357054941875051953819176618666973714519554628620392047064960854204447761602940409717691530809952108883722192723188826652864240841118627195225147963556844790953619387072449715202613526531282336699384964713072451395754541031476685575012283244577203893934978389763762420497867155077707739521019035485513416267596975055256444002561883189166871871374842193903448065694652971479008932048654131288063467951864210467111477764433677912084992399844834368930274909741859259373525190661957190283481155242401323088018498417661075073010547058873892089249560176964837795394641402933305939740181657689078783459429100613780422770471385284718103889345695986598082504668096266986929077658924425140996460108187141861683494003838945727117147269177323036833131313744659184521630225195120982922969339144879692356594932725614736589889818750116477983762340809374060249792704865178365402079888880379473559956217270709353444368702348946223411253167824643566666490479300262821219555209151629146226341897681306299315557135933660059194598636824979554035810435833691247034050187543698659274714105067716878390994055525911851388572832575206421031636561483470769624984265007992879592618753241425010971675260138923744014321442702131254895735350877262068863015852818562072903109325703380393268627045938861568523531594779565116782872941853507827692720592167776316248168360469272418790679734393061408568553053357964494912475596762492078443114385185284527989943361623082368246857944170780843100822924739236019216556418171458774574394594633478214702903329384711607503974018984189451827491175784099728025064036647353016639756941504503226728501601179289990929589262161387821548294805608962193685612504023238007684667903393411980418344181922511264870372693285776899404437888913701142579742003198140322172336858450490003661794401764492173574725811311191379056608299755405937922636507829236316349719727921588119967351708164326995747764394027208469570532677042524274031669609284746672476370030621873726015332492127182350167881689144466599768948591555313416704885995250573382346240736835820431855451475094558791080750539050249068880034991355204503839354885083747123823723245502642373253630477229923198626520959522693214038997716016310250718896576718419862981480422427348373285123766350393001878454808325770790574989777543852516122485871353792096758392688585067036156831618991942060649920659546112119519746245116332965819387467203815397398029535214073760743378834661045186738820845323059583629865978902642870686398198449726167304529442128862420212610611151896618,
   26719530,
   92673041865647923954629972721245196967031172953835361141558430754867996083323391397175381367554793951762016196154270484771439893388962173746375709403265972151703965483907027688069878140862005655529666929410002130729211431914315372282356783755787839461156298901869540733843618766389630669266188932773971351889454522849221682958741525659464735570548527705828324617862803684035686007191931950007251019335747122756793404174281617227583071910160913504199229783827280245177232827790298995699995840412260965390686249659529498573320685309959656494206838864339929871621823602285342815784639343083620107415983367430484840171732700394196695136881603453984446614903776461019755376189879719363896284637789196627648316279909780444473730758002902873197723355263974191957165404491747150753725231402180182448764276303986130156873225851199583361024864986264571495989615356422366072474275505038687441997363087477779975718832950840620915463833570766470860660889098657049707565303168102647395315821340773077364505170326369499044896576987025193023480583256746390656026339681019055437864502106288939745390787370404286617520933912083742247322547984369066161751945581068418659706728538890766171684506980427296799780190789429962368599365925747066226409169515712188299836748245870197860248983885915736638550868693570693888725132349681389924922018251556406615926562751823927859544491275653199386533288803784324620890954273878779722200711369809427549160824210388662889960715589581238478010180879780664902254164014217948834629265313455803459192698630454898052525006315219929232182830637242616660444714869194936415403393657082814094932785573961226248233508284867784290281068873720149662860439429039929426774714796277124066273269351999236012411885321015285347015055051086678082203906800487209116105063691768358993087542878544192008644691610867965828996935731403832880851791241343748931310264652902375348303963828207511139914645005865957429956448587397633156303043479044063416512739427763549836241216509536886581613092616668530896762724534251272179007580782446932313765308866079878359435198293174691831316224621898931784399443650496227745750104877241635617248490994968559502755720764494488718959970052329217148037588791044694584567423680421458371257517174714335320298234076870283787996449162386595554248647133162948549715086340372906075990288324168457409845714659880286452655826264991582509682234582745714166827302613112436313087759027042435354799328446361311325310552734039402007684551514482661587413283689351792963154447975905382472927683166880990076202025362874938063886729376545115588540619785004934505463615211027633290733999113064478626643442785743616621377183079740582259498550371405249477667876616438477946638952071218803691619611762512411365269807759601100993403701667524975623850532043339549722078502494842762518556092154656993460943823307141004743998550858266540028898608927678092462878981339379882314703163449832322554963309626579439375346912441367716469928645839412252584857190180585316109342053333667618372627398325997223166212486736318453502149127796230588334516820113271242023919249657843770250712601463379725615720168363280541197834695497396505807016652670428639643722251598876749936101623066805529927217807487034510084018763152749078592960599230591867765143320979711964828355504991359932369267029404293525566157226539663274048352065801466803763305018605572902735734011050764469565208502650848893398240150982803201383874953721727483304508483058800589785372699414883439213771840104231697990504364173052163580107809175463937500865720802752925833785827379259841675008763259777242146793389977127796956718430955673473534932546986775068755826429256981515390945601539640430800990513242569177583995555132656008515885438483288459371658710954035628032986324003545832228173243946686503182687730804272187630723805496391565273067266366905056477762568474682803852959254850042374339327663299926658935196251657497231064104691600024929024189176997870988040444335395247479957417491677218635135863363971494591072873820250580309679900441992892065206966136147309476649084048819725002482616117624355146680754194815112758337894868841007837181755209173198684231044307833385594315196590469250167778158760592562676460395410865876872309713651218662780627538098910445263519490411992307910231726720433623580825931019195654479136928595547269710999915111854768964750051727352898313028036727383173951302692041169782477710184257541376307686551311963160839640921035824338615837754682640287799489433408854844793952339998738562641213330237127012943863989683593412570021256501218194452302349129230953963762565742926149404305152229974020784113950031555985773255674706801598610622255358805514196399065091223900262751598392792285269854872631198757011510896211819030955436908949620168094145589299312756587090860699357628068853935751458717630175404891743531933943402135156976473525130091948843117593780844589844395604638847767172608655849678067586097475478888379803500897759314224194444053465371772956808293521221618541143434379960106689833995793657737741322429687236011308660676195546476838635233005473437095628132369317811341347354430999213705280738436975137323383456659721423656831844782031841154343453007135144662823759057083699592057611870546399349650219378501948154151729516810812799365184928911780113135299120000712744909393033463481839170177886990344242417608426609043026590114236692718659415359182543595510642229257074140236154289398879404255386741483005530387021439268951606500946976711544212277484612137263173545109189396240197982863454045488357339793554822392188192813963404613766536210622680734782859026607688069787260688299461962519396652489673851406342629284991788631034071368579245816264014679402992619826426494192121551955553067616086068142061681955045545102099234902325555895274140280588014789605017784137248765583258134230959086814096843465767881808849441864806115959953124078126557729960906367833477726975209733117412680155222298701079664031708807306677135102958602263276924931946070980689219177009591643757216120646417508253483071357634671705849856)

def mtChunkT1 : Nat :=
  576530615885411601245301592000665333995298971017035641151605743016014334390650357488162233615613294480555991590699430476495171072426114313754971974907122608682506805825645685212013539160435067384252499936084402767867918598201238710655243095901560006202250696161753671504002112942893302852654704316082246928744477343509059895338253102415589992057604721980525492895235696084227080387663265009553307542345390327279676811451023833039642822734639964143263747926140075292317849149026937235167824813083534485045872854420312077309261199897317801034297595956824327845257587766424881288040833618951604830463528855869001151680156107922877149238558221011630989560841929541854241712001991022762936785363997391915822090332985557480211216674160250015202883733458406524908329036638929702735084197423288972025337476268141826851413799841232297255920517739888578376882611916118372671888366476747290151457462026314683470054588642315790413163736484543351859775203916002114474162800537206645405518601810316749074949333578090844588203126659609298516433249492992629888003282476073676981875730151689402516080776808364459851846498640479442849387056034090610928754206039233078643938276139263965744111752134625786991488662909952376821456751292053964024999417019856270760980261405620319177191873948693620890870052752156252998051666553615821281664364669997925700235478436079979984333918991246971954258095869173048058234857599241416042376233471504600166522995501129680413767190782405824437152132043448138580964774433144699321440165335427127209717876907803827745323706386024551518531532417674071738625276513880615056749641745155383328206239052382868050030922288875137978955405655433508720719321653328684792107812743380481418392596218371917343819325269019518354835748397733338013129260687207177613392826042874394007359750610712519235007903759930685281018907329762068058792520029493116773238939716993790495011749111185393380500044026963359718309069644288715393930978335965268466170730885859974888180628595358370827339639823491041746583009682675355648804933723638577761480056317817597308220742269167426729595665732030506356460883927938697317510016392211302666254828689244375938108745263786691814635707011096663667077745888598210413360812888798365857248289428238709709617049337295154831718161124148115350121187853089118581950844054128009285439896965132893557434066426143552091078035395569746518313284303574136780256546453528718040719664452518445663927454987913833822061947348244659034788076593508691171709923225688133045270829160082099889126937609640862937637915508140791743875956528569809133908327340939669524864131745337286937500639354896642097082407829129341261009545051058983154571153143911518880377729987656019209591634659688616263228504052223514885823495028162495626980696404254891007155226372356430400496436157876884176534684557681014992964032139485733782760420159769142338696408877985805929676972891306926380320480004214641757919869289477596062845756705950031601188160608734991829696112694591825987042582950147160452585287086366174761540705933585199307617587737407218578504738075579571475236314207668787956945731895882565565281065651592163890648078874645864601137990271770314145535070713070610164029517373801813659087608684780434853311847229935824000396917262054294268715865968057952954755835254876075240971204184091611863059571835323593055808941416079081335697833392170413515636976989074957404226920519975657093235917453939460914280907717959939337966130414558477539969021920595840447405641451722679956934482030221395734033343544554015938854738417360214547030073524769656307528060927209209649970653664601849468619206306960174021294175629437450937531447962268766493096594639480012785331626504915822382644296176675921932949853639829109988149897099797428230462290575084435090271776465754325932663297470257450995525655883511382875766124687578455666250091691234335160493241448459801269894733997683462867779835534195170210924291621613634792771946038836756340789040954974364034520998666633271514887586281511930571939003279357127210431747807213777588233090332949916581655121388327875291566533503450211560803100926641016451800035036118057763343564561738072174915327276553955901040834916884585576656889100809795195195392134929024402972241710881269217529049930580908531179686423673001041151915449825897184077739198238044622786540247455636141160968970332425196584340977217852166948802410666747524416649750208518477268137357373178510951044736483374728747904797064093124232357040595512931638159053295934854365081464266559075864717437577392095134225725811569914043796473912413478119322962511245718332954758084915149093630706755655376201882147412333340714946357104911091234777266954809769972734004398821888086918563852168017825755669014966862002651302672481536663923343354005879883613233231031410171803383265626001180230977228254956604679212802905880059642884926581467219610624170970574499815525978984469281841054174964536312286675374716976186373817894919146158140290440116050243221466093679489031619855719796256909217229329101890155695954003983889613706895133623334950900335185479332490410733436529838820170621706570189506774419909812676151163919996928112807993845866934099116001934900719436740934995257737222410557619317521016872826370730468884214561909785665340700424031390131813109738207041816005218842475431830695159958841818624816459543957092389223066737961250347422337277800224508466574242705219746872312828435215311768674987994809261150060946074673888901332874988723032980086766472874267881075608129533520980162100611524238680092667976988608129493837411793484145270527968252294556205618070831918687910626197497055649262873666629008260150412200723533900411887519668660044656622950848186299358682416824068996108085027537102793364035311082841914505152408702035610049658508187378278976142537224985216266566948787957305976852781802841654577803756579162374171632254735795484819141174146727451981002503043094957990426922335026480936936352376116351948627771271916436303110386914520489402607675011971134064173690508358156571786562029455091616032993241411

def mtChunkT2 : Nat :=
  88210577066905824722412853722496305771247353883827453546773584536697424533770738315658374241155970794079945574700805751543291235639101646448891365852483940677376751218100605001941351796271473349678518388329372823262059519212641323322033731900658683873217697466266552651110032789915644959018230838095452037387271891910182329538493717860322525456134406007717674031468634602196254026212510462832037682098822603916429178165745104476944103394194675148892848262015821911836285936510532452238484269317298821447979489067891108251695296220830733534154489657868322773479909639097194161839386511904989952995198000212007232484647142847161021110586720077333685476655616928630811340563055174067177020010113971076226188597629434001298306129386335604141651299179654919536357148405560932886916294653451831940075659354231011550947668191231504506143735852468909559724540264552618919660346940240149637808638969212385395257125322965230412692578247695144061884587592339366319535888874538693137248150996100312824467348825732574845684053566378842732126943504233753238038289896657414787445124079626219279644021514357995842464176782267940717135759763565554456833741525972979087686602754284454849632499012449334010685327007309504727552401577150293200259099518867444043189645945925846788254248927486904522251048892172020050667368824756905796136234315504160515920735347029495731149872038562772752115816832919254797604470294671491057080291889578712361986090811609322329753109153714674696512521490689540754562341203842177429181417894661627438078444532086161106816380677745179519292386484897804877851034393107164678483616196785520754151321320859384697067246413773766416166316225961413754102881475143522369817760671888112628217257048069754580083991737587773021138866279141220744056854905966855752850580509239981397764316648479424480930422647138790585928093655111018765086581222491988341243047726771604639085002608714352291514274953220720261229217257604771630063527714680090721597889024536617204339377009383817584634572799506184566207077881940276571444411078613804735853921087555477233498450407851925012700942132692842446994460504253177153571318595389962664218223337346962258601665184707687340714931253309032507051579471677930759338036956369624736130106937739782789564079705261060931519115753956081274749715166201553916477143396526922591825305910414013340770995595490957383933064503260776207037607024669895906418707455935422716696030221787035752848538617202609203007439812719943778162863844288310203397418103219765493262695938571586328570503203455738678487482636609397210386405358387331438374490113958438177572281763461391222047762203965500730016172990856460947141681350291315342522145592333530872919319925184069071557920690093951188850044134494935761965919428662579764042085609186371054249151160019794297049642972839199434471439219273991518387754706919290060025268864692565171490837697288444209569627480558108200374803033810880350719045984408376407920702658222086298506825999713635267416825358780688291162536498181791368114441767498647120193102024047097689587516721573669213952897294649922925452054248031155517783077319312606094142662227152295336315017797488591654087790514900057348359816337332786491915062249854234241923420583932256896159683775544265656483111444936046672441051837379384519382240413155561432193957321378546413490856936430846370483738243476438685827322247618167874435415437459377020237278389390002096755428832753588166552589217510757091762720585485296204155730967227269982664356805961393922608866451103072189222663677915330420949377048483825301298160999831311302266327350526336069403704392850609681586439578449980889129030706026064493961525945805505150747774734968928517611548665587905401959808497576604846058825505505165814545815817722848720248386968438259026247742496219443178993048226758197468072700752023455884056005344014119264577721536268612674584389281876629199580663952098218750671549156854980283014449931931753612048571714371093161986453757045692330697628006584069279532065734503738922521511716896467138022256224918842636580889727461710626046944496774982276455718046755055165013060719040125509665985283983060451173331288577294517876980372005261883158376031623889015531276267700635196565058882230779111259708408980363432072272556349347438885987766755878563344478778175695613757730565504748469657266151001886606647559265688743926103743519316486867386603044139137570396721807724402622067964098369942210451177826383821788577324378027687088658650485112844849600116100228035755477312047287613175465854073080205631876364320954271938152438248002156302299148885227299430536272615122448337535141967086244587736898539840149953971972900721197164739265510735501366950686251952603976745637196065269393715426518233276992754601799756794496576864280729730565052492144757218865268192856650053467894444137409530299153984932140802917401660883289407284829956094655696381197761402522563707908213751946853061480922203735584128214147337505631615524191383990631822384915264278496074383445805118225618134774387547676190838437471948377276163596752469542921945986019209812244955315845967272614388409528561710939043126430156331413201333432519349075335611803733131688440031351236340609915255327937556208808639759267020543427031246065123783895436334443118925087667798509395124514660034055577311888331777887588237774010276230000188518079572917652795743482422451015853779488913686618507179826091151701809678565912114274036202190075534712333734365896518323698987577483755533995444243571059934700171043213692551532466545033747642908476581616310318782813061166618530035573621205020188572589320786548381730370557218291878079554251203528483721822547040660220915985984667166994205097736563522695825915369685492021988672647733983797576340647807302814068500011120569357590832951199758150835541031114209940966707770515324605924872778190085890982074450977234547553762530084313376750590727797735246482837267991090906918465651926584108497919558189098064459288569046254430142529018885566502803699885369800820375706612715865621626367394202577781067054499307043875139

/-- Splitting the `init_genrand` loop: running `a + b` steps is running `a`
steps and then `b` more from where the index left off. -/
theorem mtInitGo_add (a : Nat) : ∀ (i b : Nat) (acc : Nat × Nat × Nat),
    mtInitGo i (a + b) acc = mtInitGo (i + a) b (mtInitGo i a acc) := by
  induction a with
  | zero => intro i b acc; simp [mtInitGo]
  | succ n ih =>
      intro i b acc
      rw [show n + 1 + b = (n + b) + 1 from by omega]
      simp only [mtInitGo]
      rw [ih]
      rw [show i + 1 + n = i + (n + 1) from by omega]

/-- Splitting the twist loop, as for `mtInitGo_add`. -/
theorem mtTwistGo_add (a : Nat) : ∀ (i b : Nat) (st : Nat),
    mtTwistGo i (a + b) st = mtTwistGo (i + a) b (mtTwistGo i a st) := by
  induction a with
  | zero => intro i b st; simp [mtTwistGo]
  | succ n ih =>
      intro i b st
      rw [show n + 1 + b = (n + b) + 1 from by omega]
      simp only [mtTwistGo]
      rw [ih]
      rw [show i + 1 + n = i + (n + 1) from by omega]

set_option maxRecDepth 3000 in
theorem mtChunk1_eq : mtInitGo 1 312 (42, 42, 4294967296) = mtChunkS1 := by decide

set_option maxRecDepth 3000 in
theorem mtChunk2_eq : mtInitGo 313 311 mtChunkS1 = mtChunkS2 := by decide

set_option maxRecDepth 6000 in
set_option exponentiation.threshold 700 in
theorem mtChunk3_eq : mtTwistGo 0 312 mtChunkS2.1 = mtChunkT1 := by decide

set_option maxRecDepth 6000 in
set_option exponentiation.threshold 700 in
theorem mtChunk4_eq : mtTwistGo 312 312 mtChunkT1 = mtChunkT2 := by decide

/-- The MT19937 state right after `np.random.seed(42)`. -/
theorem mtInit_42 : mtInit 42 = mtChunkS2.1 := by
  unfold mtInit
  rw [show (42 : Nat) % 4294967296 = 42 from by norm_num]
  rw [show (623 : Nat) = 312 + 311 from by norm_num, mtInitGo_add, mtChunk1_eq]
  rw [show (1 : Nat) + 312 = 313 from by norm_num, mtChunk2_eq]

/-- The state after the first twist following `np.random.seed(42)`. -/
theorem mtTwist_init42 : mtTwist (mtInit 42) = mtChunkT2 := by
  rw [mtInit_42]
  unfold mtTwist
  rw [show (624 : Nat) = 312 + 312 from by norm_num, mtTwistGo_add, mtChunk3_eq]
  rw [show (0 : Nat) + 312 = 312 from by norm_num, mtChunk4_eq]

set_option maxRecDepth 4000 in
/-- Concrete fixture: the first five A/B draws for seed 42, matching
`np.random.seed(42); np.random.rand(5) < 0.5`
(draws 0.3745…, 0.9507…, 0.7320…, 0.5987…, 0.1560…). -/
theorem is_mixed_A_five : is_mixed_A 5 = [true, false, false, false, true] := by
  unfold is_mixed_A randNumerators mtOutputs
  rw [show (2 * 5 + 623) / 624 = 1 from by norm_num]
  rw [show mtStream (mtInit 42) 1
        = mtBlock (mtTwist (mtInit 42)) ++ mtStream (mtTwist (mtInit 42)) 0 from rfl]
  rw [mtTwist_init42]
  decide

/-! ### JSON values and the tolerant `parse` helper -/

/-- JSON values (results of `json.loads`, or already-structured fields).
Numbers are modelled as integers; no verified property depends on the
numeric type. -/
inductive Json where
  | null
  | bool (b : Bool)
  | num (n : Int)
  | str (s : String)
  | arr (xs : List Json)
  | obj (fields : List (String × Json))

/-- A raw cell value as the inner `parse` helper of `load_source_data`
receives it: an already-structured `dict` or `list`, a string (possibly
serialized JSON), or some other scalar — anything for which
`isinstance(val, (dict, list))` is false and `json.loads(val)` raises
`TypeError`.  `pyOther` carries `str(val)`. -/
inductive PyVal where
  | pyDict (fields : List (String × Json))
  | pyList (items : List Json)
  | pyStr (s : String)
  | pyOther (reprStr : String)

/-- The inner helper of `load_source_data`:

    def parse(val):
        try:
            if isinstance(val, (dict, list)):
                return val
            return json.loads(val)
        except:
            return \x7b"ingredients": [], "instructions": [str(val)]\x7d

`loads` is the injected behaviour of `json.loads` on strings (`some`
decoded value, or `none` when it raises, caught by the bare `except`).
On a non-string scalar `json.loads` raises `TypeError`, also caught. -/
def parse (loads : String → Option Json) : PyVal → Json
  | .pyDict fields => .obj fields
  | .pyList items => .arr items
  | .pyStr s =>
      match loads s with
      | some j => j
      | none => .obj [("ingredients", .arr []), ("instructions", .arr [.str s])]
  | .pyOther r => .obj [("ingredients", .arr []), ("instructions", .arr [.str r])]

/-- Python `r.get(key, default)` on a parsed recipe, as used by `render`. -/
def jsonGet (j : Json) (key : String) (dflt : Json) : Json :=
  match j with
  | .obj fields =>
      match fields.lookup key with
      | some v => v
      | none => dflt
  | _ => dflt

/-! ### `load_source_data`: blinding and one-time mapping persistence -/

/-- One row of the source CSV, restricted to the three selected columns
`title`, `output_Qwen3-4B-Cross-Entropy`, `output_Qwen3-4B-Mixed`. -/
structure SourceRow where
  title : String
  output_CE : PyVal
  output_Mixed : PyVal

/-- One row of `mapping_reference.csv`. -/
structure MappingRow where
  id : Nat
  Mixed_is : String

/-- The on-disk state of `mapping_reference.csv`.  `present none` stands
for a file that exists but is unreadable or malformed; the source only
ever tests existence (`os.path.exists`), never reads the content. -/
inductive MappingFile where
  | absent
  | present (content : Option (List MappingRow))

/-- `os.path.exists("mapping_reference.csv")`. -/
def MappingFile.fileExists : MappingFile → Bool
  | .absent => false
  | .present _ => true

/-- One element of `prepared_data`. -/
structure BlindedPair where
  ID : Nat
  title : String
  A : Json
  B : Json

/-- The observable outcome of one call of `load_source_data`: the prepared
pairs, the mapping table written this run (`none` when the write was
skipped), and whether the numpy RNG was consulted. -/
structure LoadResult where
  pairs : List BlindedPair
  mappingWritten : Option (List MappingRow)
  rngConsulted : Bool

/-- The comprehension
`[{"id": i, "Mixed_is": "A" if b else "B"} for i, b in enumerate(is_mixed_A)]`,
with `i` starting at the first argument. -/
def mapping_rows : Nat → List Bool → List MappingRow
  | _, [] => []
  | i, b :: rest => ⟨i, if b then "A" else "B"⟩ :: mapping_rows (i + 1) rest

/-- The record appended for index `i` in the loop body of
`load_source_data`: `A` is the Mixed output when the draw said so, else the
Cross-Entropy output, and `B` the other one. -/
def pairOf (loads : String → Option Json) (i : Nat) (row : SourceRow) (mixed : Bool) :
    BlindedPair :=
  { ID := i, title := row.title,
    A := if mixed then parse loads row.output_Mixed else parse loads row.output_CE,
    B := if mixed then parse loads row.output_CE else parse loads row.output_Mixed }

/-- The loop `for i, (row, mixed) in enumerate(zip(rows, is_mixed_A))`
(`zip` stops at the shorter list), with `i` starting at the first argument. -/
def build_pairs (loads : String → Option Json) :
    Nat → List SourceRow → List Bool → List BlindedPair
  | _, [], _ => []
  | _, _ :: _, [] => []
  | i, row :: rows, mixed :: rest => pairOf loads i row mixed :: build_pairs loads (i + 1) rows rest

/-- `load_source_data`: if the CSV is missing return `[]`; otherwise seed
the RNG (always), draw `len(df)` values (always), write the mapping table
only if `mapping_reference.csv` does not exist (its content is never read),
and build the blinded pairs from the fresh draws. -/
def load_source_data (loads : String → Option Json) (dataFileExists : Bool)
    (rows : List SourceRow) (mfile : MappingFile) : LoadResult :=
  if dataFileExists = false then { pairs := [], mappingWritten := none, rngConsulted := false }
  else
    let flags := is_mixed_A rows.length
    { pairs := build_pairs loads 0 rows flags,
      mappingWritten := if mfile.fileExists then none else some (mapping_rows 0 flags),
      rngConsulted := true }

/-! ### Submission recorder (form submit handler) -/

/-- One appended row of the Google-Sheet evaluation store (the `record`
dict built by the submit handler).  `A_trust` / `B_trust` are the slider
values (`at` / `bt` in the source; `at` is a Lean keyword). -/
structure EvalRecord where
  annotator : String
  sample_id : Nat
  recipe_title : String
  pref_ingredients : String
  pref_numbers : String
  pref_procedure : String
  pref_overall : String
  A_cookable : String
  A_trust : Nat
  A_errors : String
  B_cookable : String
  B_trust : Nat
  B_errors : String
  notes : String
  timestamp : String

/-- The form widget state at submit time.  A radio with `index=None` that
was never touched yields `None` (here `none`); otherwise one of
"A"/"B"/"Tie".  `all([p_ing, p_num, p_proc, p_all])` in the source is
Python truthiness: false exactly when some value is `None` (the radio
options are non-empty strings, hence truthy). -/
structure FormState where
  p_ing : Option String
  p_num : Option String
  p_proc : Option String
  p_all : Option String
  ac : String
  a_trust : Nat
  ae : List String
  bc : String
  b_trust : Nat
  be : List String
  notes : String

/-- `save_to_google_sheet`: read the current table, append one row, write
back (`pd.concat` when non-empty, else just the new row). -/
def save_to_google_sheet (df_existing : List EvalRecord) (new_record : EvalRecord) :
    List EvalRecord :=
  if df_existing.isEmpty then [new_record] else df_existing ++ [new_record]

/-- The submit branch of the form: reject with the fixed message
"Please fill all comparison fields." unless all four preference radios are
set; otherwise build the record (`A_errors`/`B_errors` are `";".join(...)`)
and append it.  Returns (error message shown, resulting store). -/
def form_submit (current_user : String) (sample_id : Nat) (title : String)
    (fs : FormState) (timestamp : String) (sheet : List EvalRecord) :
    Option String × List EvalRecord :=
  if fs.p_ing.isSome && fs.p_num.isSome && fs.p_proc.isSome && fs.p_all.isSome then
    let record : EvalRecord :=
      { annotator := current_user
        sample_id := sample_id
        recipe_title := title
        pref_ingredients := fs.p_ing.getD ""
        pref_numbers := fs.p_num.getD ""
        pref_procedure := fs.p_proc.getD ""
        pref_overall := fs.p_all.getD ""
        A_cookable := fs.ac
        A_trust := fs.a_trust
        A_errors := String.intercalate ";" fs.ae
        B_cookable := fs.bc
        B_trust := fs.b_trust
        B_errors := String.intercalate ";" fs.be
        notes := fs.notes
        timestamp := timestamp }
    (none, save_to_google_sheet sheet record)
  else (some "Please fill all comparison fields.", sheet)

/-! ### Progress tracking -/

/-- The DataFrame read from the Google Sheet: whether the `sample_id` and
`annotator` columns are present, and the rows. -/
structure ResultsDF where
  hasSampleIdCol : Bool
  hasAnnotatorCol : Bool
  rows : List EvalRecord

/-- `get_google_sheet_data`: the function body is `df = conn.read(ttl=0);
return df` — the `try/except Exception: return pd.DataFrame()` below it
(lines 101–106) is unreachable dead code, so a failing read propagates. -/
def get_google_sheet_data (readResult : Except String ResultsDF) : Except String ResultsDF :=
  readResult

/-- The progress computation (lines 130–138): the completed set stays
empty unless the table is non-empty and has both the `sample_id` and
`annotator` columns; otherwise it is the set of distinct `sample_id`
values of the rows of the current user. -/
def completed_ids (df_results : ResultsDF) (current_user : String) : Finset Nat :=
  if !df_results.rows.isEmpty && df_results.hasSampleIdCol && df_results.hasAnnotatorCol then
    ((df_results.rows.filter (fun r => r.annotator == current_user)).map
      (fun r => r.sample_id)).toFinset
  else ∅

/-- The module-level pipeline `df_results = get_google_sheet_data()`
followed by the completed-ids computation: a read failure propagates
before `completed_ids` ever runs. -/
def completed_ids_pipeline (readResult : Except String ResultsDF) (current_user : String) :
    Except String (Finset Nat) :=
  (get_google_sheet_data readResult).map (fun df => completed_ids df current_user)

/-! ### Concrete fixtures used by witnesses and counterexamples -/

/-- Behaviour of `json.loads` on the strings used in the fixtures below:
`"[1, 2]"` is valid JSON and decodes to the list `[1, 2]`; the other
strings appearing here (such as `"not json"`) are invalid JSON, on which
`json.loads` raises. -/
def demoLoads : String → Option Json :=
  fun s => if s = "[1, 2]" then some (.arr [.num 1, .num 2]) else none

/-- A sample whose two model outputs parse to distinct values. -/
def demoRowDistinct : SourceRow :=
  ⟨"Carbonara", .pyList [.str "ce"], .pyList [.str "mx"]⟩

/-- A degenerate sample whose two model outputs parse to the same value. -/
def demoRowEqual : SourceRow :=
  ⟨"Tiramisu", .pyList [.str "same"], .pyList [.str "same"]⟩

def demoRows : List SourceRow := [demoRowDistinct, demoRowEqual]

/-- A stored mapping table whose content differs from what the seeded
generator draws (sample 0 recorded as "B"). -/
def demoStoredTable : List MappingRow := [⟨0, "B"⟩, ⟨1, "A"⟩]

/-- Default values used with `List.getD`. -/
def dRow : SourceRow := ⟨"", .pyStr "", .pyStr ""⟩

def dPair : BlindedPair := ⟨0, "", .null, .null⟩

def dMap : MappingRow := ⟨0, ""⟩

/-- An evaluation-store row by `annotator` for sample `sid` (the remaining
fields are irrelevant to progress tracking). -/
def mkRow (annotator : String) (sid : Nat) : EvalRecord :=
  ⟨annotator, sid, "", "A", "A", "A", "A", "Yes", 3, "", "Yes", 3, "", "", "ts"⟩

def demoSheet : List EvalRecord := [mkRow "X" 0, mkRow "X" 2, mkRow "X" 4, mkRow "Y" 1]

def demoSheetDup : List EvalRecord := demoSheet ++ [mkRow "X" 2]

/-- All four preference radios set; both error multiselects empty. -/
def demoFormAll : FormState :=
  ⟨some "A", some "B", some "Tie", some "A", "Yes", 3, [], "No", 2, [], "ok"⟩

/-- Only the overall-preference radio unset. -/
def demoFormMissingOverall : FormState :=
  ⟨some "A", some "B", some "Tie", none, "Yes", 3, [], "No", 2, [], "ok"⟩

/-- Only the ingredients-preference radio unset. -/
def demoFormMissingIngredients : FormState :=
  ⟨none, some "B", some "Tie", some "A", "Yes", 3, [], "No", 2, [], "ok"⟩

/-! ### Length and indexing lemmas -/

theorem mtStream_length (b : Nat) : ∀ st, (mtStream st b).length = b * 624 := by
  induction b with
  | zero => intro st; simp [mtStream]
  | succ n ih =>
      intro st
      simp [mtStream, mtBlock, ih]
      ring

theorem mtOutputs_length (seed n : Nat) : (mtOutputs seed n).length = n := by
  unfold mtOutputs
  rw [List.length_take, mtStream_length]
  omega

theorem pairUp_length : (l : List Nat) → (pairUp l).length = l.length / 2
  | [] => by simp [pairUp]
  | [_] => by simp [pairUp]
  | _ :: _ :: rest => by
      simp [pairUp, pairUp_length rest]
      omega

theorem randNumerators_length (seed n : Nat) : (randNumerators seed n).length = n := by
  unfold randNumerators
  rw [pairUp_length, mtOutputs_length]
  omega

theorem is_mixed_A_length (n : Nat) : (is_mixed_A n).length = n := by
  unfold is_mixed_A
  rw [List.length_map, randNumerators_length]

theorem list_map_getD {α β : Type} (f : α → β) (dA : α) (dB : β) :
    ∀ (l : List α) (i : Nat), i < l.length → (l.map f).getD i dB = f (l.getD i dA)
  | [], i, h => absurd h (by simp)
  | _ :: _, 0, _ => by simp
  | _ :: l, i + 1, h => by
      simp only [List.map_cons, List.getD_cons_succ]
      exact list_map_getD f dA dB l i (by simpa using h)

/-- Flag `i` of the blind assignment is the 0.5-threshold test on draw `i`. -/
theorem is_mixed_A_getD (n i : Nat) (h : i < n) :
    (is_mixed_A n).getD i false
      = decide (2 * (randNumerators 42 n).getD i 0 < 9007199254740992) := by
  unfold is_mixed_A
  rw [list_map_getD _ 0 _ _ i (by rw [randNumerators_length]; exact h)]

theorem build_pairs_length (loads : String → Option Json) :
    ∀ (k : Nat) (rows : List SourceRow) (flags : List Bool),
      (build_pairs loads k rows flags).length = min rows.length flags.length
  | _, [], _ => by simp [build_pairs]
  | _, _ :: _, [] => by simp [build_pairs]
  | k, _ :: rows, _ :: flags => by
      simp [build_pairs, build_pairs_length loads (k + 1) rows flags]
      omega

theorem build_pairs_getD (loads : String → Option Json) :
    ∀ (rows : List SourceRow) (flags : List Bool) (k i : Nat),
      i < rows.length → i < flags.length →
      (build_pairs loads k rows flags).getD i dPair
        = pairOf loads (k + i) (rows.getD i dRow) (flags.getD i false)
  | [], _, _, i, h1, _ => absurd h1 (by simp)
  | _ :: _, [], _, i, _, h2 => absurd h2 (by simp)
  | _ :: _, _ :: _, k, 0, _, _ => by simp [build_pairs]
  | _ :: rows, _ :: flags, k, i + 1, h1, h2 => by
      simp only [build_pairs, List.getD_cons_succ]
      rw [build_pairs_getD loads rows flags (k + 1) i (by simpa using h1) (by simpa using h2)]
      rw [show k + 1 + i = k + (i + 1) from by omega]

theorem mapping_rows_getD :
    ∀ (flags : List Bool) (k i : Nat), i < flags.length →
      (mapping_rows k flags).getD i dMap
        = ⟨k + i, if flags.getD i false then "A" else "B"⟩
  | [], _, i, h => absurd h (by simp)
  | _ :: _, k, 0, _ => by simp [mapping_rows]
  | _ :: flags, k, i + 1, h => by
      simp only [mapping_rows, List.getD_cons_succ]
      rw [mapping_rows_getD flags (k + 1) i (by simpa using h)]
      rw [show k + 1 + i = k + (i + 1) from by omega]

theorem save_to_google_sheet_length (sheet : List EvalRecord) (r : EvalRecord) :
    (save_to_google_sheet sheet r).length = sheet.length + 1 := by
  cases sheet <;> simp [save_to_google_sheet]

/-- C1 (amended): the existence check on `mapping_reference.csv` guards only
the write.  On the first run (file absent) the full assignment table is
written; on every later run the write is skipped — but generation is NOT
skipped: the RNG is seeded and consulted again on every run (yielding the
same draws because the seed is fixed at 42), and the blinded pairs are
always built from the fresh draws, never from the stored table, which is
never read. -/
theorem load_persistence (loads : String → Option Json) (rows : List SourceRow)
    (mfile : MappingFile) :
    (load_source_data loads true rows mfile).mappingWritten
        = (if mfile.fileExists then none else some (mapping_rows 0 (is_mixed_A rows.length)))
      ∧ (load_source_data loads true rows mfile).rngConsulted = true
      ∧ (load_source_data loads true rows mfile).pairs
        = build_pairs loads 0 rows (is_mixed_A rows.length) :=
  ⟨rfl, rfl, rfl⟩

/-- C1 counterexample: even when the mapping file already exists (here with
a stored table that maps sample 0 to "B"), the run still consults the RNG
and its pairs equal those of a fresh run — refuting “skips generation
entirely, reuses the stored table verbatim … and never consults the RNG
again”. -/
theorem load_persistence_counterexample :
    (load_source_data demoLoads true demoRows (.present (some demoStoredTable))).rngConsulted
        = true
      ∧ (load_source_data demoLoads true demoRows (.present (some demoStoredTable))).pairs
        = (load_source_data demoLoads true demoRows .absent).pairs :=
  ⟨rfl, rfl⟩

/-- C9 (amended): the content of an existing mapping file is never read:
a corrupt/unreadable file (`present none`) produces exactly the same,
failure-free result as any intact file, and the run regenerates the
assignment from the seed-42 RNG.  There is no failure path: the claim's
“fail loudly” does not hold, and regeneration from the RNG happens
silently on every run (masked only by the fixed seed). -/
theorem corrupt_mapping_ignored (loads : String → Option Json) (rows : List SourceRow)
    (c c' : Option (List MappingRow)) :
    load_source_data loads true rows (.present c)
        = load_source_data loads true rows (.present c')
      ∧ (load_source_data loads true rows (.present c)).rngConsulted = true :=
  ⟨rfl, rfl⟩

/-- The prepared data has one pair per CSV row. -/
theorem load_pairs_length (loads : String → Option Json) (rows : List SourceRow)
    (mfile : MappingFile) :
    (load_source_data loads true rows mfile).pairs.length = rows.length := by
  show (build_pairs loads 0 rows (is_mixed_A rows.length)).length = rows.length
  rw [build_pairs_length, is_mixed_A_length]
  simp

/-- C9 counterexample: with a corrupt mapping file the load returns a
normal result (one blinded pair per row, RNG consulted) identical to the
result with an intact stored table — no hard failure is propagated,
refuting the claim as stated. -/
theorem corrupt_mapping_counterexample :
    (load_source_data demoLoads true demoRows (.present none)).pairs.length = 2
      ∧ (load_source_data demoLoads true demoRows (.present none)).rngConsulted = true
      ∧ load_source_data demoLoads true demoRows (.present none)
        = load_source_data demoLoads true demoRows (.present (some demoStoredTable)) := by
  refine ⟨?_, rfl, rfl⟩
  rw [load_pairs_length]
  rfl

/-- C6: determinism of the blind assignment: for the fixed seed 42 and a
fixed sample count `n`, any two runs of the generator produce the identical
sequence of A/B draws. -/
theorem blind_assignment_deterministic (n : Nat) (run1 run2 : List Bool)
    (h1 : run1 = is_mixed_A n) (h2 : run2 = is_mixed_A n) : run1 = run2 := by
  rw [h1, h2]

/-- C6 witness: two runs at seed 42, `n = 5` agree, and the sequence is
the concrete fixture `[A, B, B, B, A]` (draws 0.3745, 0.9507, 0.7320,
0.5987, 0.1560 thresholded at 0.5). -/
theorem blind_assignment_deterministic_witness :
    is_mixed_A 5 = [true, false, false, false, true] :=
  blind_assignment_deterministic 5 (is_mixed_A 5) [true, false, false, false, true] rfl
    is_mixed_A_five.symm

/-- C3 (amended): `parse` is total (never raises): an already-structured
dict/list passes through, a string decoding as JSON yields the decoded
value, and a malformed value degrades to the placeholder whose
`ingredients` are the EMPTY list — not a single-element error marker as
claimed — and whose `instructions` are the single-element list holding
`str(val)`. -/
theorem parse_tolerance (loads : String → Option Json) :
    (∀ fields, parse loads (.pyDict fields) = .obj fields)
      ∧ (∀ items, parse loads (.pyList items) = .arr items)
      ∧ (∀ s j, loads s = some j → parse loads (.pyStr s) = j)
      ∧ (∀ s, loads s = none →
          parse loads (.pyStr s)
            = .obj [("ingredients", .arr []), ("instructions", .arr [.str s])])
      ∧ (∀ r, parse loads (.pyOther r)
            = .obj [("ingredients", .arr []), ("instructions", .arr [.str r])]) :=
  ⟨fun _ => rfl, fun _ => rfl,
   fun s j h => by simp [parse, h],
   fun s h => by simp [parse, h],
   fun _ => rfl⟩

/-- C3 witness: on the raw value "not json" (on which `json.loads`
raises), `parse` returns the placeholder with empty `ingredients` and
`instructions == ["not json"]`. -/
theorem parse_tolerance_witness :
    demoLoads "not json" = none
      ∧ parse demoLoads (.pyStr "not json")
          = .obj [("ingredients", .arr []), ("instructions", .arr [.str "not json"])] :=
  ⟨rfl, (parse_tolerance demoLoads).2.2.2.1 "not json" rfl⟩

/-- C3 counterexample: for input "not json" the placeholder's
`ingredients` value is the empty list `[]`, not the claimed single-element
error marker `["Parse Error"]` (a list with no element is not a
single-element list). -/
theorem parse_tolerance_counterexample :
    jsonGet (parse demoLoads (.pyStr "not json")) "ingredients" (.arr []) = .arr []
      ∧ jsonGet (parse demoLoads (.pyStr "not json")) "instructions" (.arr [])
          = .arr [.str "not json"]
      ∧ Json.arr [] ≠ .arr [.str "Parse Error"] := by
  refine ⟨rfl, rfl, by simp⟩

/-- C10: whenever `json.loads` succeeds on a string, `parse` returns the
decoded value unchanged, whatever its shape. -/
theorem parse_passthrough (loads : String → Option Json) (s : String) (j : Json)
    (h : loads s = some j) : parse loads (.pyStr s) = j := by
  simp [parse, h]

/-- C10 witness: the string "[1, 2]" decodes to the JSON list `[1, 2]`
and `parse` passes it through unchanged — a bare list, not an
ingredients/instructions structure. -/
theorem parse_passthrough_witness :
    demoLoads "[1, 2]" = some (.arr [.num 1, .num 2])
      ∧ parse demoLoads (.pyStr "[1, 2]") = .arr [.num 1, .num 2] :=
  ⟨rfl, parse_passthrough demoLoads "[1, 2]" (.arr [.num 1, .num 2]) rfl⟩

/-- C4 (amended): a successful submission serializes the error-tag lists
for A and B with `";".join(...)`; when the selected set is empty this
yields the EMPTY string, not the literal "None" sentinel the claim
states. -/
theorem record_serializes_errors (user : String) (sid : Nat) (title : String)
    (fs : FormState) (ts : String) (sheet : List EvalRecord)
    (h : (fs.p_ing.isSome && fs.p_num.isSome && fs.p_proc.isSome && fs.p_all.isSome) = true) :
    ∃ record : EvalRecord,
      form_submit user sid title fs ts sheet = (none, save_to_google_sheet sheet record)
        ∧ record.A_errors = String.intercalate ";" fs.ae
        ∧ record.B_errors = String.intercalate ";" fs.be
        ∧ (fs.ae = [] → record.A_errors = "")
        ∧ (fs.be = [] → record.B_errors = "") := by
  refine ⟨{ annotator := user, sample_id := sid, recipe_title := title,
            pref_ingredients := fs.p_ing.getD "", pref_numbers := fs.p_num.getD "",
            pref_procedure := fs.p_proc.getD "", pref_overall := fs.p_all.getD "",
            A_cookable := fs.ac, A_trust := fs.a_trust,
            A_errors := String.intercalate ";" fs.ae,
            B_cookable := fs.bc, B_trust := fs.b_trust,
            B_errors := String.intercalate ";" fs.be,
            notes := fs.notes, timestamp := ts },
          by simp [form_submit, h], rfl, rfl, fun hae => ?_, fun hbe => ?_⟩
  · rw [hae]; rfl
  · rw [hbe]; rfl

/-- C4 witness: a fully-filled form with empty error selections submits
successfully and both serialized error fields are `";".join` of the
selections (here the empty string). -/
theorem record_serializes_errors_witness :
    ((demoFormAll.p_ing.isSome && demoFormAll.p_num.isSome
        && demoFormAll.p_proc.isSome && demoFormAll.p_all.isSome) = true)
      ∧ ∃ record : EvalRecord,
          form_submit "Chef_Mario" 0 "Carbonara" demoFormAll "2026-01-01" []
              = (none, save_to_google_sheet [] record)
            ∧ record.A_errors = String.intercalate ";" demoFormAll.ae
            ∧ record.B_errors = String.intercalate ";" demoFormAll.be
            ∧ (demoFormAll.ae = [] → record.A_errors = "")
            ∧ (demoFormAll.be = [] → record.B_errors = "") :=
  ⟨rfl, record_serializes_errors "Chef_Mario" 0 "Carbonara" demoFormAll "2026-01-01" [] rfl⟩

/-- C4 counterexample: submitting with an empty error-tag selection for A
stores `A_errors == ""`, and `"" ≠ "None"` — the "None" sentinel of the
claim is never emitted. -/
theorem record_errors_empty_counterexample :
    (form_submit "Chef_Mario" 0 "Carbonara" demoFormAll "2026-01-01" []).2.map
        (fun r => r.A_errors) = [""]
      ∧ ("" : String) ≠ "None" := by
  refine ⟨rfl, by simp⟩

/-- C5 (amended): a submission with any of the four preference radios
unset is rejected with a single FIXED error message ("Please fill all
comparison fields." — it does not list which fields are missing) and
appends zero rows; a submission with all four set appends exactly one
row. -/
theorem validation_gating (user : String) (sid : Nat) (title : String)
    (fs : FormState) (ts : String) (sheet : List EvalRecord) :
    ((fs.p_ing.isSome && fs.p_num.isSome && fs.p_proc.isSome && fs.p_all.isSome) = false →
        form_submit user sid title fs ts sheet
          = (some "Please fill all comparison fields.", sheet))
      ∧ ((fs.p_ing.isSome && fs.p_num.isSome && fs.p_proc.isSome && fs.p_all.isSome) = true →
        (form_submit user sid title fs ts sheet).1 = none
          ∧ (form_submit user sid title fs ts sheet).2.length = sheet.length + 1) := by
  constructor
  · intro h
    simp [form_submit, h]
  · intro h
    refine ⟨by simp [form_submit, h], ?_⟩
    simp [form_submit, h, save_to_google_sheet_length]

/-- C5 witness: a form with `pref_overall` unset is rejected with the
fixed message and the store is unchanged. -/
theorem validation_gating_witness :
    ((demoFormMissingOverall.p_ing.isSome && demoFormMissingOverall.p_num.isSome
        && demoFormMissingOverall.p_proc.isSome && demoFormMissingOverall.p_all.isSome) = false)
      ∧ form_submit "Chef_Mario" 0 "Carbonara" demoFormMissingOverall "2026-01-01" []
          = (some "Please fill all comparison fields.", []) :=
  ⟨rfl, (validation_gating "Chef_Mario" 0 "Carbonara" demoFormMissingOverall "2026-01-01" []).1
    rfl⟩

/-- C5 counterexample: submissions missing different fields
(`pref_overall` in one, `pref_ingredients` in the other) produce the
IDENTICAL fixed error message, so the error cannot be listing which fields
are missing, refuting that part of the claim. -/
theorem validation_error_not_listing_counterexample :
    (form_submit "Chef_Mario" 0 "Carbonara" demoFormMissingOverall "ts" []).1
        = some "Please fill all comparison fields."
      ∧ (form_submit "Chef_Mario" 0 "Carbonara" demoFormMissingIngredients "ts" []).1
        = some "Please fill all comparison fields."
      ∧ demoFormMissingOverall.p_all = none
      ∧ demoFormMissingOverall.p_ing ≠ none
      ∧ demoFormMissingIngredients.p_ing = none
      ∧ demoFormMissingIngredients.p_all ≠ none := by
  refine ⟨rfl, rfl, rfl, by simp [demoFormMissingOverall], rfl, by simp [demoFormMissingIngredients]⟩

/-- C7: over a store with records for samples 0, 2, 4 by "X" and 1 by
"Y", `completed_ids` filtered to "X" is exactly the set 0, 2, 4; a
duplicate ("X", 2) row leaves the completed set unchanged — distinct-set
semantics, not counts. -/
theorem completed_ids_progress :
    completed_ids ⟨true, true, demoSheet⟩ "X" = ({0, 2, 4} : Finset Nat)
      ∧ completed_ids ⟨true, true, demoSheetDup⟩ "X" = ({0, 2, 4} : Finset Nat) := by
  constructor <;> decide

/-- C8: the empty-table and missing-column cases do degrade to the empty
set, but a failing store read does NOT: `get_google_sheet_data` returns
`conn.read(ttl=0)` directly and its `try/except → empty` block (lines
101–106) is unreachable dead code, so the error propagates and the
progress pipeline never produces the claimed empty set. -/
theorem progress_read_failure_propagates :
    completed_ids_pipeline (Except.error "read failed") "X" = Except.error "read failed"
      ∧ completed_ids_pipeline (Except.ok ⟨true, true, []⟩) "X" = Except.ok (∅ : Finset Nat)
      ∧ completed_ids_pipeline (Except.ok ⟨false, false, demoSheet⟩) "X"
        = Except.ok (∅ : Finset Nat) := by
  refine ⟨rfl, rfl, rfl⟩

/-- The blinded pair shown for sample `i` (with the CSV present). -/
def blindedPairAt (loads : String → Option Json) (rows : List SourceRow)
    (mfile : MappingFile) (i : Nat) : BlindedPair :=
  (load_source_data loads true rows mfile).pairs.getD i dPair

/-- The parsed Mixed-model output of sample `i`. -/
def mixedOutputAt (loads : String → Option Json) (rows : List SourceRow) (i : Nat) : Json :=
  parse loads (rows.getD i dRow).output_Mixed

/-- The parsed Cross-Entropy output of sample `i`. -/
def ceOutputAt (loads : String → Option Json) (rows : List SourceRow) (i : Nat) : Json :=
  parse loads (rows.getD i dRow).output_CE

/-- Row `i` of the (first-run) persisted mapping table. -/
def mappingRowAt (rows : List SourceRow) (i : Nat) : MappingRow :=
  (mapping_rows 0 (is_mixed_A rows.length)).getD i dMap

theorem blindedPairAt_eq (loads : String → Option Json) (rows : List SourceRow)
    (mfile : MappingFile) (i : Nat) (hi : i < rows.length) :
    blindedPairAt loads rows mfile i
      = pairOf loads i (rows.getD i dRow) ((is_mixed_A rows.length).getD i false) := by
  have hlen : i < (is_mixed_A rows.length).length := by rw [is_mixed_A_length]; exact hi
  show (build_pairs loads 0 rows (is_mixed_A rows.length)).getD i dPair = _
  rw [build_pairs_getD loads rows (is_mixed_A rows.length) 0 i hi hlen]
  norm_num

theorem mappingRowAt_eq (rows : List SourceRow) (i : Nat) (hi : i < rows.length) :
    mappingRowAt rows i
      = ⟨i, if (is_mixed_A rows.length).getD i false then "A" else "B"⟩ := by
  have hlen : i < (is_mixed_A rows.length).length := by rw [is_mixed_A_length]; exact hi
  unfold mappingRowAt
  rw [mapping_rows_getD (is_mixed_A rows.length) 0 i hlen]
  norm_num

/-- C2 (amended): provided the two parsed outputs of a sample are
DISTINCT, one blinded slot holds the Mixed output and the other the
Cross-Entropy output, exactly one slot equals the Mixed output, and the
persisted mapping row satisfies the round-trip
`Mixed_is == "A" ↔ pair.A == mixed output ↔ draw < 0.5`
(`2·numerator < 2^53`).  The distinctness hypothesis is forced: when the
two outputs coincide, both slots equal the Mixed output. -/
theorem blinding_round_trip (loads : String → Option Json) (rows : List SourceRow)
    (mfile : MappingFile) (i : Nat) (hi : i < rows.length)
    (hne : mixedOutputAt loads rows i ≠ ceOutputAt loads rows i) :
    ((blindedPairAt loads rows mfile i).A = mixedOutputAt loads rows i
        ∧ (blindedPairAt loads rows mfile i).B = ceOutputAt loads rows i
      ∨ (blindedPairAt loads rows mfile i).B = mixedOutputAt loads rows i
        ∧ (blindedPairAt loads rows mfile i).A = ceOutputAt loads rows i)
      ∧ ¬((blindedPairAt loads rows mfile i).A = mixedOutputAt loads rows i
          ∧ (blindedPairAt loads rows mfile i).B = mixedOutputAt loads rows i)
      ∧ ((mappingRowAt rows i).Mixed_is = "A"
          ↔ (blindedPairAt loads rows mfile i).A = mixedOutputAt loads rows i)
      ∧ ((mappingRowAt rows i).Mixed_is = "A"
          ↔ 2 * (randNumerators 42 rows.length).getD i 0 < 9007199254740992) := by
  have hflag := is_mixed_A_getD rows.length i hi
  rw [blindedPairAt_eq loads rows mfile i hi, mappingRowAt_eq rows i hi]
  cases hf : (is_mixed_A rows.length).getD i false with
  | false =>
      have hnum : ¬(2 * (randNumerators 42 rows.length).getD i 0 < 9007199254740992) :=
        of_decide_eq_false (hflag.symm.trans hf)
      exact ⟨Or.inr ⟨rfl, rfl⟩,
             fun hcon => hne hcon.1.symm,
             iff_of_false (by simp) (fun hA => hne hA.symm),
             iff_of_false (by simp) hnum⟩
  | true =>
      have hnum : 2 * (randNumerators 42 rows.length).getD i 0 < 9007199254740992 :=
        of_decide_eq_true (hflag.symm.trans hf)
      exact ⟨Or.inl ⟨rfl, rfl⟩,
             fun hcon => hne hcon.2.symm,
             iff_of_true rfl rfl,
             iff_of_true rfl hnum⟩

/-- C2 witness: the round-trip theorem instantiated at sample 0 of the
demo dataset, whose two outputs parse to distinct values. -/
theorem blinding_round_trip_witness :
    ((0 : Nat) < demoRows.length
        ∧ mixedOutputAt demoLoads demoRows 0 ≠ ceOutputAt demoLoads demoRows 0)
      ∧ (((blindedPairAt demoLoads demoRows .absent 0).A = mixedOutputAt demoLoads demoRows 0
            ∧ (blindedPairAt demoLoads demoRows .absent 0).B = ceOutputAt demoLoads demoRows 0
          ∨ (blindedPairAt demoLoads demoRows .absent 0).B = mixedOutputAt demoLoads demoRows 0
            ∧ (blindedPairAt demoLoads demoRows .absent 0).A = ceOutputAt demoLoads demoRows 0)
          ∧ ¬((blindedPairAt demoLoads demoRows .absent 0).A = mixedOutputAt demoLoads demoRows 0
              ∧ (blindedPairAt demoLoads demoRows .absent 0).B
                = mixedOutputAt demoLoads demoRows 0)
          ∧ ((mappingRowAt demoRows 0).Mixed_is = "A"
              ↔ (blindedPairAt demoLoads demoRows .absent 0).A
                = mixedOutputAt demoLoads demoRows 0)
          ∧ ((mappingRowAt demoRows 0).Mixed_is = "A"
              ↔ 2 * (randNumerators 42 demoRows.length).getD 0 0 < 9007199254740992)) :=
  ⟨⟨by simp [demoRows], by simp [mixedOutputAt, ceOutputAt, demoRows, demoRowDistinct, parse]⟩,
   blinding_round_trip demoLoads demoRows .absent 0 (by simp [demoRows])
     (by simp [mixedOutputAt, ceOutputAt, demoRows, demoRowDistinct, parse])⟩

/-- C2 counterexample: at a sample whose two raw outputs parse to the
same value, BOTH slots equal the Mixed output, so the claim's “exactly one
of A/B equals the Mixed-model output” is false as stated (whatever the
draw said). -/
theorem blinding_round_trip_counterexample :
    (blindedPairAt demoLoads demoRows .absent 1).A = mixedOutputAt demoLoads demoRows 1
      ∧ (blindedPairAt demoLoads demoRows .absent 1).B = mixedOutputAt demoLoads demoRows 1
      ∧ ¬((blindedPairAt demoLoads demoRows .absent 1).A = mixedOutputAt demoLoads demoRows 1
            ∧ ¬(blindedPairAt demoLoads demoRows .absent 1).B = mixedOutputAt demoLoads demoRows 1
          ∨ (blindedPairAt demoLoads demoRows .absent 1).B = mixedOutputAt demoLoads demoRows 1
            ∧ ¬(blindedPairAt demoLoads demoRows .absent 1).A
                = mixedOutputAt demoLoads demoRows 1) := by
  have h1 : (1 : Nat) < demoRows.length := by simp [demoRows]
  rw [blindedPairAt_eq demoLoads demoRows .absent 1 h1]
  cases hf : (is_mixed_A demoRows.length).getD 1 false with
  | false => exact ⟨rfl, rfl, fun hcon => hcon.elim (fun h => h.2 rfl) (fun h => h.2 rfl)⟩
  | true => exact ⟨rfl, rfl, fun hcon => hcon.elim (fun h => h.2 rfl) (fun h => h.2 rfl)⟩
